import Mathlib

/-!
Shallow embedding of the `/run` request handler of the hathor-playground
backend (Express server, `server.js`).  Paths are modelled as lists of
segments (the segments of an absolute POSIX path); `path.join`'s
normalisation of `.` and `..` components is modelled by `joinPath`.
The handler is modelled as a pure function from the request, an
environment (timestamp, random id, staging/exec outcomes) and an initial
filesystem to a trace: the final filesystem, the appended log records,
the executed command and the HTTP response.
-/

namespace HathorPlayground

/-- Splits a list of characters on a separator character, the way
`String.split` / Node's internal path parsing does: `"a/b"` becomes
`[['a'], ['b']]`, `"a//b"` becomes `[['a'], [], ['b']]`. -/
def splitOnChar (sep : Char) (cs : List Char) : List (List Char) :=
  cs.foldr
    (fun c acc =>
      match acc with
      | [] => [[c]]
      | g :: gs => if c = sep then [] :: g :: gs else (c :: g) :: gs)
    [[]]

/-- The segments of a relative path string. -/
def pathSegments (s : String) : List String :=
  (splitOnChar '/' s.data).map (fun g => String.mk g)

/-- One step of Node `path.join` normalisation: empty and `.` segments are
dropped, `..` removes the previous segment, every other segment is
appended. -/
def addSegment (acc : List String) (s : String) : List String :=
  if s = "" ∨ s = "." then acc
  else if s = ".." then acc.dropLast
  else acc ++ [s]

/-- `joinPath base rel` models `path.join(base, rel)` where `base` is an
absolute path given by its segments and `rel` is a path string: the
segments of `rel` are folded onto `base` with `..`-normalisation, as
Node's `path.join` does. -/
def joinPath (base : List String) (rel : String) : List String :=
  (pathSegments rel).foldl addSegment base

/-- `isUnder root p` holds when path `p` lies inside directory `root`
(strictly: `root` is a proper ancestor of `p`). -/
def isUnder (root p : List String) : Bool :=
  root.isPrefixOf p && decide (root.length < p.length)

/-- `path.join(__dirname, 'tmp')` — the configured temp root. -/
def tmpRoot (dirname : List String) : List String :=
  joinPath dirname "tmp"

/-- The name of the per-request directory:
`` `${timestamp}_${randomId}` `` (source line 26).  `natToDec` renders the
`Date.now()` value the way JS template interpolation renders a number. -/
def digitChar (d : Nat) : Char :=
  Nat.digitChar d

/-- Digit accumulator with an explicit structural fuel (first argument);
with fuel at least `n` it renders all decimal digits of `n` in front of
`acc`. -/
def natToDecAux : Nat → Nat → List Char → List Char
  | 0, _, acc => acc
  | _ + 1, 0, acc => acc
  | fuel + 1, n + 1, acc =>
      natToDecAux fuel ((n + 1) / 10) (digitChar ((n + 1) % 10) :: acc)

/-- Decimal rendering of a natural number, as JS `${n}` renders it. -/
def natToDec (n : Nat) : String :=
  if n = 0 then "0" else String.mk (natToDecAux n n [])

def tempDirName (timestamp : Nat) (randomId : String) : String :=
  natToDec timestamp ++ "_" ++ randomId

/-- `path.join(__dirname, 'tmp', `${timestamp}_${randomId}`)`
(source line 26). -/
def uniqueTempDir (dirname : List String) (timestamp : Nat) (randomId : String) :
    List String :=
  joinPath (tmpRoot dirname) (tempDirName timestamp randomId)

/-- `path.join(uniqueTempDir, `${entryName}.py`)` (source line 31). -/
def contractFilePath (dir : List String) (entryName : String) : List String :=
  joinPath dir (entryName ++ ".py")

/-- `path.join(uniqueTempDir, 'test.py')` (source line 32). -/
def testFilePath (dir : List String) : List String :=
  joinPath dir "test.py"

/-- `Math.random().toString(36).substring(2, 15)` yields only base-36
digit characters (`0`–`9`, `a`–`z`). -/
def randomIdWF (s : String) : Bool :=
  s.data.all (fun c => (('0' ≤ c && c ≤ '9') || ('a' ≤ c && c ≤ 'z')))

/-- The request body of `POST /run`: `{ contractCode, testCode, entryName }`.
A `none` field is absent from the JSON body (JS `undefined`). -/
structure RunRequest where
  contractCode : Option String
  testCode : Option String
  entryName : Option String

/-- JS truthiness test used by the validation `!contractCode || ...`
(source line 19): an absent field and the empty string are both falsy. -/
def strFalsy : Option String → Bool
  | none => true
  | some s => s == ""

/-- What `exec`'s callback receives: `error` is `some message` when the
external docker process itself failed (nonzero exit, spawn failure),
together with the captured streams. -/
structure ExecOutcome where
  error : Option String
  stdout : String
  stderr : String

/-- The staging step at which a filesystem exception is thrown, if any:
`mkdirSync` (line 28), the contract `writeFileSync` (line 34) or the test
`writeFileSync` (line 35). -/
inductive StageStep
  | mkdirStep
  | writeContractStep
  | writeTestStep
deriving DecidableEq

/-- Ambient data of one handler run: `__dirname`, the `Date.now()` value,
the `Math.random()` token, the ISO timestamp used in the log record,
whether a staging operation throws (and its `error.message`), whether
`appendFileSync` on the log throws, and the outcome the `exec` callback
receives.  `stagingFail` records the throw, if any, of the three staging
syscalls; a faithful instantiation sets it to the failure the filesystem
forces — in particular `writeFileSync` throws `ENOENT` whenever the
target's parent directory is missing, as happens when `entryName`
contains path separators — so `stagingFail = none` describes exactly the
runs in which all three staging calls succeeded. -/
structure Env where
  dirname : List String
  timestamp : Nat
  randomId : String
  isoTime : String
  stagingFail : Option (StageStep × String)
  logFail : Bool
  outcome : ExecOutcome

/-- Filesystem state: the set of existing directories and the files with
their contents, all named by absolute-path segment lists. -/
structure FS where
  dirs : List (List String)
  files : List (List String × String)

/-- All nonempty prefixes of a path: the chain of directories that
`fs.mkdirSync(d, { recursive: true })` ensures exist. -/
def pathChain (d : List String) : List (List String) :=
  (List.range d.length).map (fun k => d.take (k + 1))

/-- `fs.mkdirSync(d, { recursive: true })` (source line 28): creates the
directory and every missing ancestor. -/
def FS.mkdirDir (fs : FS) (d : List String) : FS :=
  { fs with dirs := fs.dirs ++ pathChain d }

/-- `fs.writeFileSync(p, content)` (source lines 34–35): creates or
overwrites the file when its parent directory exists.  When the parent
is missing the real call throws `ENOENT` and no file appears; the throw
itself reaches the handler through `Env.stagingFail`, and this function
accordingly materialises no file at such a path. -/
def FS.writeFile (fs : FS) (p : List String) (content : String) : FS :=
  if p.dropLast ∈ fs.dirs then
    { fs with files := (fs.files.filter (fun f => !(f.1 == p))) ++ [(p, content)] }
  else fs

/-- `fs.rmSync(d, { recursive: true, force: true })`: removes the
directory and everything strictly below it.  A file whose (normalised)
path is *not* below `d` is untouched. -/
def FS.rmrf (fs : FS) (d : List String) : FS :=
  { dirs := fs.dirs.filter (fun x => !(x == d || isUnder d x)),
    files := fs.files.filter (fun f => !(isUnder d f.1)) }

/-- A response body: `res.json({ error: msg })` or a plain `res.send`
text payload. -/
inductive Body
  | jsonError (msg : String)
  | text (s : String)
deriving DecidableEq

structure Response where
  status : Nat
  body : Body
deriving DecidableEq

/-- The observable trace of one handler run: the response, the final
filesystem, the directories passed to `mkdirSync`, the `(path, content)`
arguments of the `writeFileSync` calls made on the taken path, the
records appended to the shared log, the external commands executed, and
the workspace path the handler allocated (the value of the
`uniqueTempDir` variable). -/
structure RunOutcome where
  response : Response
  fs : FS
  dirsCreated : List (List String)
  filesWritten : List (List String × String)
  logAppends : List String
  execCommands : List String
  workspaceDir : Option (List String)

/-- `/app/hathor/nanocontracts/blueprints/${entryName}.py` (line 43). -/
def contractMountPath (entryName : String) : String :=
  "/app/hathor/nanocontracts/blueprints/" ++ entryName ++ ".py"

/-- `/app/tests/nanocontracts/blueprints/test.py` (line 44). -/
def testMountPath : String :=
  "/app/tests/nanocontracts/blueprints/test.py"

/-- Renders a segment-list path as the absolute path string interpolated
into the docker command. -/
def pathToString (p : List String) : String :=
  "/" ++ String.intercalate "/" p

/-- The docker command string built by string interpolation
(source lines 46–50). -/
def dockerCommand (contractFile testFile : List String) (entryName : String) :
    String :=
  "docker run --rm " ++
  "-v \"" ++ pathToString contractFile ++ ":" ++ contractMountPath entryName ++ "\" " ++
  "-v \"" ++ pathToString testFile ++ ":" ++ testMountPath ++ "\" " ++
  "obiyankenobi/hathor-core-test-image " ++
  "-v tests/nanocontracts/blueprints/test.py"

/-- The options passed to `child_process.exec` at line 54.  The source
calls `exec(dockerCommand, callback)` with *no* options object, so the
`timeout` option has Node's default (`0`, meaning no time bound): no
timeout is configured. -/
def execTimeoutOption : Option Nat :=
  none

/-- The log record text (source lines 57–75). -/
def logContent (isoTime cmd entryName : String) (dir : List String)
    (o : ExecOutcome) : String :=
  "\n=== Docker Execution Log ===\nTimestamp: " ++ isoTime ++
  "\nCommand: " ++ cmd ++
  "\nEntry: " ++ entryName ++
  "\nTemp Dir: " ++ pathToString dir ++
  "\n\n=== STDOUT ===\n" ++ (if o.stdout == "" then "(no stdout)" else o.stdout) ++
  "\n\n=== STDERR ===\n" ++ (if o.stderr == "" then "(no stderr)" else o.stderr) ++
  "\n\n=== ERROR ===\n" ++ (match o.error with | some m => m | none => "(no error)") ++
  "\n\n=== END LOG ===\n\n"

/-- `` const output = `${stdout}${stderr ? `\n${stderr}` : ''}` ``
(source line 111). -/
def execOutput (o : ExecOutcome) : String :=
  o.stdout ++ (if o.stderr == "" then "" else "\n" ++ o.stderr)

/-- The `POST /run` handler (source lines 13–133), as a function of the
request, the ambient environment and the initial filesystem. -/
def runHandler (env : Env) (req : RunRequest) (fs0 : FS) : RunOutcome :=
  if strFalsy req.contractCode || strFalsy req.testCode || strFalsy req.entryName then
    { response := ⟨400, .jsonError "Missing required fields"⟩, fs := fs0,
      dirsCreated := [], filesWritten := [],
      logAppends := [], execCommands := [], workspaceDir := none }
  else
    let entryName := req.entryName.getD ""
    let contractCode := req.contractCode.getD ""
    let testCode := req.testCode.getD ""
    let dir := uniqueTempDir env.dirname env.timestamp env.randomId
    match env.stagingFail with
    | some (StageStep.mkdirStep, m) =>
        { response := ⟨500, .text ("Server error: " ++ m)⟩, fs := fs0,
          dirsCreated := [], filesWritten := [],
          logAppends := [], execCommands := [], workspaceDir := some dir }
    | some (StageStep.writeContractStep, m) =>
        { response := ⟨500, .text ("Server error: " ++ m)⟩,
          fs := (fs0.mkdirDir dir).rmrf dir,
          dirsCreated := [dir], filesWritten := [],
          logAppends := [], execCommands := [], workspaceDir := some dir }
    | some (StageStep.writeTestStep, m) =>
        { response := ⟨500, .text ("Server error: " ++ m)⟩,
          fs := (((fs0.mkdirDir dir).writeFile
                    (contractFilePath dir entryName) contractCode).rmrf dir),
          dirsCreated := [dir],
          filesWritten := [(contractFilePath dir entryName, contractCode)],
          logAppends := [], execCommands := [], workspaceDir := some dir }
    | none =>
        let cFile := contractFilePath dir entryName
        let tFile := testFilePath dir
        let fs1 := ((fs0.mkdirDir dir).writeFile cFile contractCode).writeFile
                      tFile testCode
        let cmd := dockerCommand cFile tFile entryName
        let fs2 := fs1.mkdirDir (tmpRoot env.dirname)
        let logs := if env.logFail then []
                    else [logContent env.isoTime cmd entryName dir env.outcome]
        { response := ⟨200, .text (execOutput env.outcome)⟩, fs := fs2.rmrf dir,
          dirsCreated := [dir, tmpRoot env.dirname],
          filesWritten := [(cFile, contractCode), (tFile, testCode)],
          logAppends := logs, execCommands := [cmd], workspaceDir := some dir }

/-! ### Auxiliary lemmas: decimal rendering, the `_` separator, path joins -/

def isDecDigit (c : Char) : Bool :=
  '0' ≤ c && c ≤ '9'

theorem digitChar_isDecDigit {d : Nat} (h : d < 10) :
    isDecDigit (digitChar d) = true := by
  interval_cases d <;> decide

theorem natToDecAux_zero (fuel : Nat) (acc : List Char) :
    natToDecAux fuel 0 acc = acc := by
  cases fuel <;> rfl

theorem natToDecAux_append :
    ∀ fuel n acc, n ≤ fuel → natToDecAux fuel n acc = natToDecAux fuel n [] ++ acc := by
  intro fuel
  induction fuel with
  | zero =>
    intro n acc h
    have : n = 0 := Nat.le_zero.mp h
    rw [this, natToDecAux_zero, natToDecAux_zero]
    rfl
  | succ fuel ih =>
    intro n acc h
    match n with
    | 0 => rw [natToDecAux_zero, natToDecAux_zero]; rfl
    | k + 1 =>
      have hle : (k + 1) / 10 ≤ fuel :=
        Nat.le_of_lt_succ (Nat.lt_of_lt_of_le
          (Nat.div_lt_self (Nat.succ_pos k) (by decide)) h)
      show natToDecAux fuel ((k + 1) / 10) (digitChar ((k + 1) % 10) :: acc) =
        natToDecAux fuel ((k + 1) / 10) [digitChar ((k + 1) % 10)] ++ acc
      rw [ih _ (digitChar ((k + 1) % 10) :: acc) hle,
        ih _ [digitChar ((k + 1) % 10)] hle]
      simp

theorem natToDecAux_digits :
    ∀ fuel n acc, (∀ c ∈ acc, isDecDigit c = true) →
      ∀ c ∈ natToDecAux fuel n acc, isDecDigit c = true := by
  intro fuel
  induction fuel with
  | zero => intro n acc hacc c hc; exact hacc c hc
  | succ fuel ih =>
    intro n acc hacc c hc
    match n with
    | 0 => exact hacc c (by rwa [natToDecAux_zero] at hc)
    | k + 1 =>
      refine ih ((k + 1) / 10) _ ?_ c hc
      intro c' hc'
      rcases List.mem_cons.mp hc' with h | h
      · rw [h]; exact digitChar_isDecDigit (Nat.mod_lt _ (by decide))
      · exact hacc c' h

/-- Reads a decimal digit string back into the number it renders. -/
def decodeDec (cs : List Char) : Nat :=
  cs.foldl (fun a c => 10 * a + (c.toNat - 48)) 0

theorem digitChar_toNat {d : Nat} (h : d < 10) : (digitChar d).toNat - 48 = d := by
  interval_cases d <;> decide

theorem decodeDec_natToDecAux :
    ∀ fuel n, n ≠ 0 → n ≤ fuel → decodeDec (natToDecAux fuel n []) = n := by
  intro fuel
  induction fuel with
  | zero => intro n hn h; exact absurd (Nat.le_zero.mp h) hn
  | succ fuel ih =>
    intro n hn h
    match n, hn with
    | k + 1, _ =>
      have hle : (k + 1) / 10 ≤ fuel :=
        Nat.le_of_lt_succ (Nat.lt_of_lt_of_le
          (Nat.div_lt_self (Nat.succ_pos k) (by decide)) h)
      show decodeDec
        (natToDecAux fuel ((k + 1) / 10) [digitChar ((k + 1) % 10)]) = k + 1
      rw [natToDecAux_append fuel _ _ hle]
      by_cases h10 : (k + 1) / 10 = 0
      · rw [h10, natToDecAux_zero]
        unfold decodeDec
        rw [List.nil_append, List.foldl_cons, List.foldl_nil,
          digitChar_toNat (Nat.mod_lt _ (by decide))]
        omega
      · have hrec := ih _ h10 hle
        unfold decodeDec at hrec ⊢
        rw [List.foldl_append, hrec, List.foldl_cons, List.foldl_nil,
          digitChar_toNat (Nat.mod_lt _ (by decide))]
        omega

theorem decodeDec_natToDec (n : Nat) : decodeDec (natToDec n).data = n := by
  by_cases hn : n = 0
  · rw [hn]; decide
  · unfold natToDec
    rw [if_neg hn]
    exact decodeDec_natToDecAux n n hn (Nat.le_refl n)

theorem natToDec_inj {m n : Nat} (h : (natToDec m).data = (natToDec n).data) :
    m = n := by
  have := congrArg decodeDec h
  rwa [decodeDec_natToDec, decodeDec_natToDec] at this

theorem natToDec_data_digits (n : Nat) :
    ∀ c ∈ (natToDec n).data, isDecDigit c = true := by
  intro c hc
  unfold natToDec at hc
  by_cases hn : n = 0
  · rw [if_pos hn] at hc
    have h0 : ("0" : String).data = ['0'] := rfl
    rw [h0, List.mem_singleton] at hc
    rw [hc]; decide
  · rw [if_neg hn] at hc
    exact natToDecAux_digits n n [] (by intro c' hc'; cases hc') c hc

theorem underscore_not_in_natToDec (n : Nat) : '_' ∉ (natToDec n).data := by
  intro h
  exact absurd (natToDec_data_digits n _ h) (by decide)

/-- A string of the shape `s ++ "_" ++ r` with no underscore in `s`
splits uniquely at its first underscore. -/
theorem sepSplit_unique :
    ∀ (s₁ s₂ r₁ r₂ : List Char), '_' ∉ s₁ → '_' ∉ s₂ →
      s₁ ++ '_' :: r₁ = s₂ ++ '_' :: r₂ → s₁ = s₂ ∧ r₁ = r₂ := by
  intro s₁
  induction s₁ with
  | nil =>
    intro s₂ r₁ r₂ h₁ h₂ heq
    cases s₂ with
    | nil => simpa using heq
    | cons b bs =>
      rw [List.nil_append, List.cons_append, List.cons_eq_cons] at heq
      exact absurd (heq.1 ▸ List.mem_cons_self b bs) h₂
  | cons a as ih =>
    intro s₂ r₁ r₂ h₁ h₂ heq
    cases s₂ with
    | nil =>
      rw [List.nil_append, List.cons_append, List.cons_eq_cons] at heq
      exact absurd (heq.1 ▸ List.mem_cons_self a as) h₁
    | cons b bs =>
      rw [List.cons_append, List.cons_append, List.cons_eq_cons] at heq
      obtain ⟨hab, htail⟩ := heq
      have hrec := ih bs r₁ r₂ (fun h => h₁ (List.mem_cons_of_mem _ h))
        (fun h => h₂ (List.mem_cons_of_mem _ h)) htail
      exact ⟨by rw [hab, hrec.1], hrec.2⟩

theorem splitOnChar_no_sep {sep : Char} :
    ∀ cs : List Char, sep ∉ cs → splitOnChar sep cs = [cs] := by
  intro cs
  induction cs with
  | nil => intro _; rfl
  | cons c cs ih =>
    intro h
    have hc : ¬(c = sep) := fun hh => h (by rw [hh]; exact List.mem_cons_self _ _)
    have hcs : splitOnChar sep cs = [cs] := ih (fun hh => h (List.mem_cons_of_mem _ hh))
    simp only [splitOnChar, List.foldr_cons] at hcs ⊢
    rw [hcs]
    simp [hc]

theorem pathSegments_single {s : String} (h : '/' ∉ s.data) :
    pathSegments s = [s] := by
  unfold pathSegments
  rw [splitOnChar_no_sep s.data h]
  rfl

theorem joinPath_single (base : List String) (s : String)
    (hslash : '/' ∉ s.data) (h0 : s ≠ "") (h1 : s ≠ ".") (h2 : s ≠ "..") :
    joinPath base s = base ++ [s] := by
  unfold joinPath
  rw [pathSegments_single hslash]
  simp [addSegment, h0, h1, h2]

theorem tempDirName_data (ts : Nat) (rid : String) :
    (tempDirName ts rid).data = (natToDec ts).data ++ '_' :: rid.data := by
  unfold tempDirName
  rw [String.data_append, String.data_append]
  simp

theorem tempDirName_inj {ts₁ ts₂ : Nat} {r₁ r₂ : String}
    (h : tempDirName ts₁ r₁ = tempDirName ts₂ r₂) : ts₁ = ts₂ ∧ r₁ = r₂ := by
  have hd := congrArg String.data h
  rw [tempDirName_data, tempDirName_data] at hd
  obtain ⟨h₁, h₂⟩ := sepSplit_unique _ _ _ _ (underscore_not_in_natToDec ts₁)
    (underscore_not_in_natToDec ts₂) hd
  exact ⟨natToDec_inj h₁, String.ext h₂⟩

theorem tempDirName_no_slash {ts : Nat} {rid : String}
    (h : randomIdWF rid = true) : '/' ∉ (tempDirName ts rid).data := by
  rw [tempDirName_data]
  intro hc
  rcases List.mem_append.mp hc with hm | hm
  · exact absurd (natToDec_data_digits ts _ hm) (by decide)
  · rcases List.mem_cons.mp hm with hm | hm
    · exact absurd hm (by decide)
    · have := List.all_eq_true.mp h _ hm
      exact absurd this (by decide)

theorem tempDirName_has_underscore (ts : Nat) (rid : String) :
    '_' ∈ (tempDirName ts rid).data := by
  rw [tempDirName_data]
  exact List.mem_append_right _ (List.mem_cons_self _ _)

theorem tempDirName_ne_special (ts : Nat) (rid : String) :
    tempDirName ts rid ≠ "" ∧ tempDirName ts rid ≠ "." ∧ tempDirName ts rid ≠ ".." := by
  have hmem := tempDirName_has_underscore ts rid
  refine ⟨?_, ?_, ?_⟩ <;> intro he <;> rw [he] at hmem <;>
    exact absurd hmem (by decide)

theorem tmpRoot_eq (dn : List String) : tmpRoot dn = dn ++ ["tmp"] := by
  unfold tmpRoot
  exact joinPath_single dn "tmp" (by decide) (by decide) (by decide) (by decide)

theorem uniqueTempDir_eq {dn : List String} {ts : Nat} {rid : String}
    (h : randomIdWF rid = true) :
    uniqueTempDir dn ts rid = dn ++ ["tmp", tempDirName ts rid] := by
  unfold uniqueTempDir
  rw [tmpRoot_eq,
    joinPath_single _ _ (tempDirName_no_slash h) (tempDirName_ne_special ts rid).1
      (tempDirName_ne_special ts rid).2.1 (tempDirName_ne_special ts rid).2.2]
  simp

theorem uniqueTempDir_inj {dn : List String} {ts₁ ts₂ : Nat} {r₁ r₂ : String}
    (h₁ : randomIdWF r₁ = true) (h₂ : randomIdWF r₂ = true)
    (hne : ts₁ ≠ ts₂ ∨ r₁ ≠ r₂) :
    uniqueTempDir dn ts₁ r₁ ≠ uniqueTempDir dn ts₂ r₂ := by
  intro h
  rw [uniqueTempDir_eq h₁, uniqueTempDir_eq h₂] at h
  have hc := List.append_cancel_left h
  rw [List.cons_eq_cons] at hc
  have hn : tempDirName ts₁ r₁ = tempDirName ts₂ r₂ := by
    have := hc.2
    simpa using this
  obtain ⟨hts, hr⟩ := tempDirName_inj hn
  cases hne with
  | inl h => exact h hts
  | inr h => exact h hr

theorem isPrefixOf_self_append : ∀ l t : List String, l.isPrefixOf (l ++ t) = true := by
  intro l
  induction l with
  | nil => intro t; cases t <;> rfl
  | cons a l ih => intro t; simp [List.isPrefixOf, ih]

theorem isUnder_append_single (d : List String) (x : String) :
    isUnder d (d ++ [x]) = true := by
  unfold isUnder
  rw [isPrefixOf_self_append]
  simp

theorem append_py_len (e : String) :
    (e ++ ".py").data.length = e.data.length + 3 := by
  rw [String.data_append, List.length_append]
  rfl

theorem contractFilePath_no_sep (dir : List String) (e : String)
    (h : '/' ∉ e.data) : contractFilePath dir e = dir ++ [e ++ ".py"] := by
  unfold contractFilePath
  apply joinPath_single
  · rw [String.data_append]
    intro hm
    rcases List.mem_append.mp hm with hm | hm
    · exact h hm
    · exact absurd hm (by decide)
  · intro he
    have hl := append_py_len e
    rw [he] at hl
    have h0 : ("" : String).data.length = 0 := rfl
    omega
  · intro he
    have hl := append_py_len e
    rw [he] at hl
    have h1 : ("." : String).data.length = 1 := rfl
    omega
  · intro he
    have hl := append_py_len e
    rw [he] at hl
    have h2 : (".." : String).data.length = 2 := rfl
    omega

theorem testFilePath_eq (dir : List String) :
    testFilePath dir = dir ++ ["test.py"] := by
  unfold testFilePath
  exact joinPath_single dir "test.py" (by decide) (by decide) (by decide) (by decide)

/-! ### Path equations of the handler -/

theorem FS.not_mem_rmrf (fs : FS) (d : List String) : d ∉ (FS.rmrf fs d).dirs := by
  unfold FS.rmrf
  intro h
  have hp := (List.mem_filter.mp h).2
  simp at hp

theorem runHandler_invalid (env : Env) (req : RunRequest) (fs0 : FS)
    (h : (strFalsy req.contractCode || strFalsy req.testCode ||
          strFalsy req.entryName) = true) :
    runHandler env req fs0 =
      ⟨⟨400, Body.jsonError "Missing required fields"⟩, fs0, [], [], [], [], none⟩ := by
  unfold runHandler
  rw [if_pos h]

theorem runHandler_exec (env : Env) (req : RunRequest) (fs0 : FS)
    (hc : strFalsy req.contractCode = false) (ht : strFalsy req.testCode = false)
    (he : strFalsy req.entryName = false) (hs : env.stagingFail = none) :
    runHandler env req fs0 =
      (let dir := uniqueTempDir env.dirname env.timestamp env.randomId
       let cFile := contractFilePath dir (req.entryName.getD "")
       let tFile := testFilePath dir
       let cmd := dockerCommand cFile tFile (req.entryName.getD "")
       { response := ⟨200, Body.text (execOutput env.outcome)⟩,
         fs := ((((fs0.mkdirDir dir).writeFile cFile (req.contractCode.getD "")).writeFile
                   tFile (req.testCode.getD "")).mkdirDir (tmpRoot env.dirname)).rmrf dir,
         dirsCreated := [dir, tmpRoot env.dirname],
         filesWritten := [(cFile, req.contractCode.getD ""),
                          (tFile, req.testCode.getD "")],
         logAppends := if env.logFail then []
                       else [logContent env.isoTime cmd (req.entryName.getD "") dir
                               env.outcome],
         execCommands := [cmd], workspaceDir := some dir }) := by
  simp only [runHandler, hc, ht, he, hs, Bool.or_self, Bool.or_false, Bool.false_or]
  rfl

theorem runHandler_mkdirFail (env : Env) (req : RunRequest) (fs0 : FS) (m : String)
    (hc : strFalsy req.contractCode = false) (ht : strFalsy req.testCode = false)
    (he : strFalsy req.entryName = false)
    (hs : env.stagingFail = some (StageStep.mkdirStep, m)) :
    runHandler env req fs0 =
      ⟨⟨500, Body.text ("Server error: " ++ m)⟩, fs0, [], [], [], [],
       some (uniqueTempDir env.dirname env.timestamp env.randomId)⟩ := by
  simp only [runHandler, hc, ht, he, hs, Bool.or_self, Bool.or_false, Bool.false_or]
  rfl

theorem runHandler_writeContractFail (env : Env) (req : RunRequest) (fs0 : FS)
    (m : String)
    (hc : strFalsy req.contractCode = false) (ht : strFalsy req.testCode = false)
    (he : strFalsy req.entryName = false)
    (hs : env.stagingFail = some (StageStep.writeContractStep, m)) :
    runHandler env req fs0 =
      (let dir := uniqueTempDir env.dirname env.timestamp env.randomId
       ⟨⟨500, Body.text ("Server error: " ++ m)⟩, (fs0.mkdirDir dir).rmrf dir,
        [dir], [], [], [], some dir⟩) := by
  simp only [runHandler, hc, ht, he, hs, Bool.or_self, Bool.or_false, Bool.false_or]
  rfl

theorem runHandler_writeTestFail (env : Env) (req : RunRequest) (fs0 : FS)
    (m : String)
    (hc : strFalsy req.contractCode = false) (ht : strFalsy req.testCode = false)
    (he : strFalsy req.entryName = false)
    (hs : env.stagingFail = some (StageStep.writeTestStep, m)) :
    runHandler env req fs0 =
      (let dir := uniqueTempDir env.dirname env.timestamp env.randomId
       let cFile := contractFilePath dir (req.entryName.getD "")
       ⟨⟨500, Body.text ("Server error: " ++ m)⟩,
        ((fs0.mkdirDir dir).writeFile cFile (req.contractCode.getD "")).rmrf dir,
        [dir], [(cFile, req.contractCode.getD "")], [], [], some dir⟩) := by
  simp only [runHandler, hc, ht, he, hs, Bool.or_self, Bool.or_false, Bool.false_or]
  rfl

/-- Decomposes the failure of the JS validation test into the three
per-field truthiness facts. -/
theorem validation_passes {req : RunRequest}
    (h : ¬((strFalsy req.contractCode || strFalsy req.testCode ||
            strFalsy req.entryName) = true)) :
    strFalsy req.contractCode = false ∧ strFalsy req.testCode = false ∧
      strFalsy req.entryName = false := by
  simp only [Bool.or_eq_true, not_or, Bool.not_eq_true] at h
  exact ⟨h.1.1, h.1.2, h.2⟩

/-! ### Concrete fixtures -/

def dirnameEx : List String := ["srv", "backend"]

def envOk : Env :=
  ⟨dirnameEx, 1700000000000, "k3j9x2m8q4z7a", "2026-10-12T00:00:00.000Z", none,
   false, ⟨none, "OK\n", ""⟩⟩

def envErr : Env :=
  { envOk with
    outcome := ⟨some "Command failed: docker: not found", "",
                "docker: command not found"⟩ }

def envStageFail : Env :=
  { envOk with
    stagingFail := some (StageStep.writeTestStep, "ENOSPC: no space left on device") }

def reqOk : RunRequest := ⟨some "x = 1", some "assert True", some "demo"⟩

def reqTraversal : RunRequest := ⟨some "x = 1", some "assert True", some "../../etc"⟩

def reqDollar : RunRequest := ⟨some "x = 1", some "assert True", some "a$b"⟩

def fsEmpty : FS := ⟨[], []⟩

/-- Request A of the C8 scenario: same `Date.now()` as request B, its own
random id. -/
def envA : Env := { envOk with randomId := "aaaaaaaaaaaaa" }

/-- Request B's workspace root in the C8 scenario (random id
`bbbbbbbbbbbbb`, same millisecond). -/
def wsB : List String := uniqueTempDir dirnameEx 1700000000000 "bbbbbbbbbbbbb"

/-- The entry name both requests of the C8 scenario share: it names
request B's workspace directory through `..`. -/
def reqShared : RunRequest :=
  ⟨some "x = 1", some "assert True", some "../1700000000000_bbbbbbbbbbbbb/x"⟩

/-- Follows the spec's words, for comparison with the code: an entry
identifier that is "safe to use as a filesystem path component and as a
substring of a shell command (no path separators, no shell
metacharacters)". -/
def specSafeIdentifier (s : String) : Bool :=
  s.data.all (fun c =>
    !(c = '/' || c = '\\' || c = '"' || c = '$' || c = ';' || c = '&' ||
      c = '|' || c = ' '))

/-! ### Claims -/

/-- C1: the handler performs no rejection and no sanitisation of
`entryName`.  At `entryName = "../../etc"` the request passes validation
(status 200, docker runs), the contract artifact is written to
`<dirname>/etc.py`, which is *outside* the temp root `<dirname>/tmp`;
the escaped file even survives cleanup, remaining on disk after the
response. -/
theorem c1_traversal_escapes_temp_root :
    (runHandler envOk reqTraversal fsEmpty).response.status = 200 ∧
    (runHandler envOk reqTraversal fsEmpty).filesWritten.map Prod.fst =
      [["srv", "backend", "etc.py"],
       ["srv", "backend", "tmp", "1700000000000_k3j9x2m8q4z7a", "test.py"]] ∧
    isUnder (tmpRoot dirnameEx) ["srv", "backend", "etc.py"] = false ∧
    (runHandler envOk reqTraversal fsEmpty).fs.files =
      [(["srv", "backend", "etc.py"], "x = 1")] := by
  refine ⟨rfl, rfl, rfl, rfl⟩

/-- C2 counterexample: when the docker process itself fails
(`error ≠ null` in the `exec` callback), the handler does not answer 500:
it answers 200. -/
theorem c2_docker_error_not_500 :
    (runHandler envErr reqOk fsEmpty).response.status = 200 ∧
    ¬((runHandler envErr reqOk fsEmpty).response.status = 500) := by
  refine ⟨rfl, by decide⟩

/-- C2 (amended): on an operational docker failure the handler still
responds with status 200 and body `stdout (+ "\n" + stderr)`; the
workspace is released, and (when the append itself does not throw)
exactly one log record — whose text carries the operational error
message — is appended. -/
theorem c2_docker_error_behaviour (env : Env) (req : RunRequest) (fs0 : FS)
    (m : String)
    (hc : strFalsy req.contractCode = false) (ht : strFalsy req.testCode = false)
    (he : strFalsy req.entryName = false) (hs : env.stagingFail = none)
    (_herr : env.outcome.error = some m) (hlog : env.logFail = false) :
    (runHandler env req fs0).response.status = 200 ∧
    (runHandler env req fs0).response.body = Body.text (execOutput env.outcome) ∧
    uniqueTempDir env.dirname env.timestamp env.randomId ∉
      (runHandler env req fs0).fs.dirs ∧
    (runHandler env req fs0).logAppends =
      [logContent env.isoTime
        (dockerCommand
          (contractFilePath (uniqueTempDir env.dirname env.timestamp env.randomId)
            (req.entryName.getD ""))
          (testFilePath (uniqueTempDir env.dirname env.timestamp env.randomId))
          (req.entryName.getD ""))
        (req.entryName.getD "")
        (uniqueTempDir env.dirname env.timestamp env.randomId) env.outcome] := by
  rw [runHandler_exec env req fs0 hc ht he hs]
  refine ⟨rfl, rfl, FS.not_mem_rmrf _ _, ?_⟩
  simp [hlog]

/-- C2 witness: the amended behaviour at a concrete failing invocation. -/
theorem c2_docker_error_behaviour_witness :
    (runHandler envErr reqOk fsEmpty).response.status = 200 ∧
    (runHandler envErr reqOk fsEmpty).response.body =
      Body.text (execOutput envErr.outcome) ∧
    uniqueTempDir envErr.dirname envErr.timestamp envErr.randomId ∉
      (runHandler envErr reqOk fsEmpty).fs.dirs ∧
    (runHandler envErr reqOk fsEmpty).logAppends =
      [logContent envErr.isoTime
        (dockerCommand
          (contractFilePath (uniqueTempDir envErr.dirname envErr.timestamp envErr.randomId)
            (reqOk.entryName.getD ""))
          (testFilePath (uniqueTempDir envErr.dirname envErr.timestamp envErr.randomId))
          (reqOk.entryName.getD ""))
        (reqOk.entryName.getD "")
        (uniqueTempDir envErr.dirname envErr.timestamp envErr.randomId) envErr.outcome] :=
  c2_docker_error_behaviour envErr reqOk fsEmpty "Command failed: docker: not found"
    (by decide) (by decide) (by decide) rfl rfl rfl

/-- C3: on every path of the handler — validation failure, staging
failure at any step, and the `exec` callback (docker error or not) — the
allocated workspace directory does not exist once the response is
produced. -/
theorem c3_workspace_removed_on_all_paths (env : Env) (req : RunRequest) (fs0 : FS)
    (hfresh : uniqueTempDir env.dirname env.timestamp env.randomId ∉ fs0.dirs) :
    uniqueTempDir env.dirname env.timestamp env.randomId ∉
      (runHandler env req fs0).fs.dirs := by
  by_cases hcond : (strFalsy req.contractCode || strFalsy req.testCode ||
      strFalsy req.entryName) = true
  · rw [runHandler_invalid env req fs0 hcond]
    exact hfresh
  · obtain ⟨hc, ht, he⟩ := validation_passes hcond
    rcases hsf : env.stagingFail with _ | ⟨step, m⟩
    · rw [runHandler_exec env req fs0 hc ht he hsf]
      exact FS.not_mem_rmrf _ _
    · cases step with
      | mkdirStep =>
          rw [runHandler_mkdirFail env req fs0 m hc ht he hsf]
          exact hfresh
      | writeContractStep =>
          rw [runHandler_writeContractFail env req fs0 m hc ht he hsf]
          exact FS.not_mem_rmrf _ _
      | writeTestStep =>
          rw [runHandler_writeTestFail env req fs0 m hc ht he hsf]
          exact FS.not_mem_rmrf _ _

/-- C3 witness at a concrete request. -/
theorem c3_workspace_removed_witness :
    uniqueTempDir envOk.dirname envOk.timestamp envOk.randomId ∉
      (runHandler envOk reqOk fsEmpty).fs.dirs :=
  c3_workspace_removed_on_all_paths envOk reqOk fsEmpty (by decide)

/-- C4 counterexample: with `stdout = "A"` and `stderr = "B"` the body is
`"A\nB"`, not the plain concatenation `"AB"`: the code inserts a newline
between the streams when stderr is nonempty. -/
theorem c4_newline_between_streams :
    (runHandler { envOk with outcome := ⟨none, "A", "B"⟩ } reqOk fsEmpty).response.body
      = Body.text "A\nB" ∧
    Body.text "A\nB" ≠ Body.text ("A" ++ "B") := by
  refine ⟨rfl, by decide⟩

/-- C4 (amended): whenever the invocation runs — including when the
docker process reports an error — the response is 200 and its body is
exactly `stdout`, followed by a newline and `stderr` when stderr is
nonempty; nothing of the captured text is inspected or altered
otherwise. -/
theorem c4_output_passthrough (env : Env) (req : RunRequest) (fs0 : FS)
    (hc : strFalsy req.contractCode = false) (ht : strFalsy req.testCode = false)
    (he : strFalsy req.entryName = false) (hs : env.stagingFail = none) :
    (runHandler env req fs0).response.status = 200 ∧
    (runHandler env req fs0).response.body =
      Body.text (env.outcome.stdout ++
        (if env.outcome.stderr == "" then "" else "\n" ++ env.outcome.stderr)) := by
  rw [runHandler_exec env req fs0 hc ht he hs]
  exact ⟨rfl, rfl⟩

/-- C4 witness at a concrete invocation. -/
theorem c4_output_passthrough_witness :
    (runHandler envOk reqOk fsEmpty).response.status = 200 ∧
    (runHandler envOk reqOk fsEmpty).response.body =
      Body.text (envOk.outcome.stdout ++
        (if envOk.outcome.stderr == "" then "" else "\n" ++ envOk.outcome.stderr)) :=
  c4_output_passthrough envOk reqOk fsEmpty (by decide) (by decide) (by decide) rfl

/-- C5 counterexample: the `exec` call at line 54 passes no options
object, so no maximum duration is configured at all — there is no bound
`t` such that the invocation is limited to `t`. -/
theorem c5_no_timeout_configured :
    execTimeoutOption = none ∧ ∀ t : Nat, execTimeoutOption ≠ some t :=
  ⟨rfl, fun _ h => Option.noConfusion h⟩

/-- C5 (amended): the invocation is unbounded (no timeout option), so a
program that runs forever is never forcibly terminated and no
"execution timed out" failure is ever produced; only when the external
process eventually terminates does the callback fire, and then the
workspace is released and the outcome reported with status 200. -/
theorem c5_unbounded_invocation :
    execTimeoutOption = none ∧
    ∀ (env : Env) (req : RunRequest) (fs0 : FS),
      strFalsy req.contractCode = false → strFalsy req.testCode = false →
      strFalsy req.entryName = false → env.stagingFail = none →
      (runHandler env req fs0).response.status = 200 ∧
      uniqueTempDir env.dirname env.timestamp env.randomId ∉
        (runHandler env req fs0).fs.dirs := by
  refine ⟨rfl, ?_⟩
  intro env req fs0 hc ht he hs
  rw [runHandler_exec env req fs0 hc ht he hs]
  exact ⟨rfl, FS.not_mem_rmrf _ _⟩

/-- C5 witness at a concrete terminating invocation. -/
theorem c5_unbounded_invocation_witness :
    execTimeoutOption = none ∧
    ((runHandler envOk reqOk fsEmpty).response.status = 200 ∧
      uniqueTempDir envOk.dirname envOk.timestamp envOk.randomId ∉
        (runHandler envOk reqOk fsEmpty).fs.dirs) :=
  ⟨c5_unbounded_invocation.1,
   c5_unbounded_invocation.2 envOk reqOk fsEmpty (by decide) (by decide) (by decide) rfl⟩

/-- C6: a request missing any of the three required fields is answered
400, and no directory is created and no file written: the filesystem is
untouched (validation precedes `mkdirSync`). -/
theorem c6_missing_field_no_side_effect (env : Env) (req : RunRequest) (fs0 : FS)
    (h : req.contractCode = none ∨ req.testCode = none ∨ req.entryName = none) :
    (runHandler env req fs0).response.status = 400 ∧
    (runHandler env req fs0).dirsCreated = [] ∧
    (runHandler env req fs0).filesWritten = [] ∧
    (runHandler env req fs0).fs = fs0 := by
  have hb : (strFalsy req.contractCode || strFalsy req.testCode ||
      strFalsy req.entryName) = true := by
    rcases h with h | h | h <;> rw [h] <;> simp [strFalsy]
  rw [runHandler_invalid env req fs0 hb]
  exact ⟨rfl, rfl, rfl, rfl⟩

/-- C6 witness: a request with no `contractCode`. -/
theorem c6_missing_field_witness :
    (runHandler envOk ⟨none, some "assert True", some "demo"⟩ fsEmpty).response.status
      = 400 ∧
    (runHandler envOk ⟨none, some "assert True", some "demo"⟩ fsEmpty).dirsCreated = [] ∧
    (runHandler envOk ⟨none, some "assert True", some "demo"⟩ fsEmpty).filesWritten = [] ∧
    (runHandler envOk ⟨none, some "assert True", some "demo"⟩ fsEmpty).fs = fsEmpty :=
  c6_missing_field_no_side_effect envOk ⟨none, some "assert True", some "demo"⟩ fsEmpty
    (Or.inl rfl)

/-- C7 counterexample: a validated request whose staging fails (the test
file write throws) is answered 500 with *zero* log records appended —
the catch block never logs. -/
theorem c7_staging_failure_no_log :
    (runHandler envStageFail reqOk fsEmpty).response.status = 500 ∧
    (runHandler envStageFail reqOk fsEmpty).logAppends.length = 0 ∧
    ¬((runHandler envStageFail reqOk fsEmpty).logAppends.length = 1) := by
  refine ⟨rfl, rfl, by decide⟩

/-- C7 (amended): exactly one log record is appended for every request
that reaches the docker invocation (even when docker fails
operationally), provided the append itself does not throw; on a staging
failure, however, no log record is written at all. -/
theorem c7_one_log_per_invocation (env : Env) (req : RunRequest) (fs0 : FS)
    (hc : strFalsy req.contractCode = false) (ht : strFalsy req.testCode = false)
    (he : strFalsy req.entryName = false) (hlog : env.logFail = false) :
    (env.stagingFail = none → (runHandler env req fs0).logAppends.length = 1) ∧
    (∀ p, env.stagingFail = some p → (runHandler env req fs0).logAppends = []) := by
  constructor
  · intro hs
    rw [runHandler_exec env req fs0 hc ht he hs]
    simp [hlog]
  · intro p hp
    obtain ⟨step, m⟩ := p
    cases step with
    | mkdirStep => rw [runHandler_mkdirFail env req fs0 m hc ht he hp]
    | writeContractStep => rw [runHandler_writeContractFail env req fs0 m hc ht he hp]
    | writeTestStep => rw [runHandler_writeTestFail env req fs0 m hc ht he hp]

/-- C7 witness at a concrete request. -/
theorem c7_one_log_per_invocation_witness :
    ((envOk.stagingFail = none →
        (runHandler envOk reqOk fsEmpty).logAppends.length = 1) ∧
     (∀ p, envOk.stagingFail = some p →
        (runHandler envOk reqOk fsEmpty).logAppends = [])) :=
  c7_one_log_per_invocation envOk reqOk fsEmpty (by decide) (by decide) (by decide) rfl

/-- C8 counterexample: two concurrent requests sharing the *same*
`entryName` — request B has allocated its workspace `wsB` and is still
running when request A executes.  The two roots are distinct, yet A's
contract artifact is written at `wsB/x.py`, *inside* B's workspace
(and survives A's cleanup), because the unsanitised join lets the
shared entry name `../1700000000000_bbbbbbbbbbbbb/x` escape A's root:
the claim's "neither request's artifacts are visible in the other's
workspace" conjunct is false. -/
theorem c8_artifact_visible_in_other_workspace :
    uniqueTempDir dirnameEx 1700000000000 "aaaaaaaaaaaaa" ≠ wsB ∧
    (runHandler envA reqShared (fsEmpty.mkdirDir wsB)).response.status = 200 ∧
    (runHandler envA reqShared (fsEmpty.mkdirDir wsB)).filesWritten.map Prod.fst =
      [wsB ++ ["x.py"],
       uniqueTempDir dirnameEx 1700000000000 "aaaaaaaaaaaaa" ++ ["test.py"]] ∧
    isUnder wsB (wsB ++ ["x.py"]) = true ∧
    (wsB ++ ["x.py"], "x = 1") ∈
      (runHandler envA reqShared (fsEmpty.mkdirDir wsB)).fs.files := by
  refine ⟨by decide, rfl, by decide, by decide, by decide⟩

/-- C8 (amended): every workspace root is
`<dirname>/tmp/<timestamp>_<randomId>` — a function of the timestamp and
random draw only, never of the entry name — so concurrent requests with
distinct draws get distinct roots even with equal entry identifiers; and
for a request whose entry name is free of path separators, every staged
artifact lies under that request's own workspace root.  (With path
separators in the entry name, containment fails, as the counterexample
shows.) -/
theorem c8_workspace_isolation (dn : List String) (ts₁ ts₂ : Nat)
    (r₁ r₂ : String)
    (h₁ : randomIdWF r₁ = true) (h₂ : randomIdWF r₂ = true)
    (hne : ts₁ ≠ ts₂ ∨ r₁ ≠ r₂) :
    uniqueTempDir dn ts₁ r₁ ≠ uniqueTempDir dn ts₂ r₂ ∧
    (∀ (env : Env) (req : RunRequest) (fs0 : FS),
      strFalsy req.contractCode = false → strFalsy req.testCode = false →
      strFalsy req.entryName = false →
      (runHandler env req fs0).workspaceDir =
        some (uniqueTempDir env.dirname env.timestamp env.randomId)) ∧
    (∀ (env : Env) (req : RunRequest) (fs0 : FS),
      strFalsy req.contractCode = false → strFalsy req.testCode = false →
      strFalsy req.entryName = false → env.stagingFail = none →
      '/' ∉ (req.entryName.getD "").data →
      ∀ pr ∈ (runHandler env req fs0).filesWritten,
        isUnder (uniqueTempDir env.dirname env.timestamp env.randomId) pr.1
          = true) := by
  refine ⟨uniqueTempDir_inj h₁ h₂ hne, ?_, ?_⟩
  · intro env req fs0 hc ht he
    rcases hsf : env.stagingFail with _ | ⟨step, m⟩
    · rw [runHandler_exec env req fs0 hc ht he hsf]
    · cases step with
      | mkdirStep => rw [runHandler_mkdirFail env req fs0 m hc ht he hsf]
      | writeContractStep => rw [runHandler_writeContractFail env req fs0 m hc ht he hsf]
      | writeTestStep => rw [runHandler_writeTestFail env req fs0 m hc ht he hsf]
  · intro env req fs0 hc ht he hs hsep pr hpr
    rw [runHandler_exec env req fs0 hc ht he hs] at hpr
    simp only [List.mem_cons, List.not_mem_nil, or_false] at hpr
    rcases hpr with h | h
    · rw [h]
      rw [contractFilePath_no_sep _ _ hsep]
      exact isUnder_append_single _ _
    · rw [h]
      rw [testFilePath_eq]
      exact isUnder_append_single _ _

/-- C8 witness: distinct roots for distinct draws; the concrete root of
a valid request; containment of the concrete contract artifact of a
separator-free entry name. -/
theorem c8_workspace_isolation_witness :
    (uniqueTempDir ["b"] 1 "a0" ≠ uniqueTempDir ["b"] 1 "a1") ∧
    (runHandler envOk reqOk fsEmpty).workspaceDir =
      some (uniqueTempDir envOk.dirname envOk.timestamp envOk.randomId) ∧
    isUnder (uniqueTempDir envOk.dirname envOk.timestamp envOk.randomId)
      (contractFilePath (uniqueTempDir envOk.dirname envOk.timestamp envOk.randomId)
        (reqOk.entryName.getD "")) = true :=
  ⟨(c8_workspace_isolation ["b"] 1 1 "a0" "a1" (by decide) (by decide)
      (Or.inr (by decide))).1,
   (c8_workspace_isolation ["b"] 1 1 "a0" "a1" (by decide) (by decide)
      (Or.inr (by decide))).2.1 envOk reqOk fsEmpty (by decide) (by decide) (by decide),
   (c8_workspace_isolation ["b"] 1 1 "a0" "a1" (by decide) (by decide)
      (Or.inr (by decide))).2.2 envOk reqOk fsEmpty (by decide) (by decide) (by decide)
     rfl (by decide)
     (contractFilePath (uniqueTempDir envOk.dirname envOk.timestamp envOk.randomId)
        (reqOk.entryName.getD ""), reqOk.contractCode.getD "") (by decide)⟩

/-- C9 counterexample: the identifier used for the contract filename is
the raw `entryName`, not a sanitised one: at `entryName = "a$b"` —
unsafe by the spec's own no-shell-metacharacter criterion, yet
separator-free, so staging really succeeds — the contract is written at
`<workspace>/a$b.py`, keeping the raw metacharacter, and the request
proceeds to docker with status 200. -/
theorem c9_filename_uses_raw_identifier :
    specSafeIdentifier "a$b" = false ∧
    (runHandler envOk reqDollar fsEmpty).response.status = 200 ∧
    (runHandler envOk reqDollar fsEmpty).filesWritten.map Prod.fst =
      [["srv", "backend", "tmp", "1700000000000_k3j9x2m8q4z7a", "a$b.py"],
       ["srv", "backend", "tmp", "1700000000000_k3j9x2m8q4z7a", "test.py"]] := by
  refine ⟨by decide, rfl, by decide⟩

/-- C9 (amended): for every validated request whose entry name is free
of path separators (so the artifact paths' parent directory exists and
the writes succeed), staging writes exactly the two submitted artifacts,
verbatim, the contract under `<entryName>.py` inside the workspace with
the entry identifier used exactly as received (no sanitisation), the
test under the fixed name `test.py` inside the workspace. -/
theorem c9_staging_verbatim (env : Env) (req : RunRequest) (fs0 : FS)
    (hc : strFalsy req.contractCode = false) (ht : strFalsy req.testCode = false)
    (he : strFalsy req.entryName = false) (hs : env.stagingFail = none)
    (hsep : '/' ∉ (req.entryName.getD "").data) :
    (runHandler env req fs0).filesWritten =
      [(uniqueTempDir env.dirname env.timestamp env.randomId ++
          [(req.entryName.getD "") ++ ".py"], req.contractCode.getD ""),
       (uniqueTempDir env.dirname env.timestamp env.randomId ++ ["test.py"],
          req.testCode.getD "")] := by
  rw [runHandler_exec env req fs0 hc ht he hs]
  simp only [contractFilePath_no_sep _ _ hsep, testFilePath_eq]

/-- C9 witness at a concrete request. -/
theorem c9_staging_verbatim_witness :
    (runHandler envOk reqOk fsEmpty).filesWritten =
      [(uniqueTempDir envOk.dirname envOk.timestamp envOk.randomId ++
          [(reqOk.entryName.getD "") ++ ".py"], reqOk.contractCode.getD ""),
       (uniqueTempDir envOk.dirname envOk.timestamp envOk.randomId ++ ["test.py"],
          reqOk.testCode.getD "")] :=
  c9_staging_verbatim envOk reqOk fsEmpty (by decide) (by decide) (by decide) rfl
    (by decide)

/-- C10: whenever any of the three fields is absent or empty, the 400
response carries the one fixed body `{ error: "Missing required
fields" }`, independent of which field was missing. -/
theorem c10_fixed_validation_body (env : Env) (req : RunRequest) (fs0 : FS)
    (h : strFalsy req.contractCode = true ∨ strFalsy req.testCode = true ∨
         strFalsy req.entryName = true) :
    (runHandler env req fs0).response =
      ⟨400, Body.jsonError "Missing required fields"⟩ := by
  have hb : (strFalsy req.contractCode || strFalsy req.testCode ||
      strFalsy req.entryName) = true := by
    rcases h with h | h | h <;> simp [h]
  rw [runHandler_invalid env req fs0 hb]

/-- C10 witness: an empty `testCode` string. -/
theorem c10_fixed_validation_body_witness :
    (runHandler envOk ⟨some "x = 1", some "", some "demo"⟩ fsEmpty).response =
      ⟨400, Body.jsonError "Missing required fields"⟩ :=
  c10_fixed_validation_body envOk ⟨some "x = 1", some "", some "demo"⟩ fsEmpty
    (Or.inr (Or.inl (by decide)))

end HathorPlayground
